import Mathlib

/-!
Shallow embedding of the GameWrapper component (frame loop, keyboard
tracking, and publish/subscribe event hub) of the `freestyle-next-game`
repository, together with theorems about its behaviour.

The event hub is a JS `Map<GameEventType, Set<EventCallback>>` held in a
ref.  We model callback references by natural-number identities, `Set`
objects by identities into a store (object identity matters: the
unsubscribe closure captures the `Set` object, not the map slot), and
`Set` contents by duplicate-free lists in insertion order.  `Set.forEach`
is modelled by its ECMAScript semantics over the live set: at each step
the first element (in insertion order) that has not yet been visited is
visited next, so elements appended during iteration are visited and
elements deleted before being reached are skipped.

Callbacks can mutate the registry and re-emit, so dispatch is modelled as
a fueled interpreter over a small language of callback effects; `none`
means the fuel ran out (as in JS, a callback chain that keeps subscribing
fresh callbacks never terminates).
-/

/-- The event categories of the hub (`GameEventType` in the source). -/
inductive GameEventType where
  | tick
  | collision
  | keyChange
  | custom
deriving DecidableEq, Repr

/-- Identity of a callback function object (`EventCallback` reference). -/
abbrev CbId := Nat

/-- Identity of a JS `Set` object allocated by `subscribe`. -/
abbrev SetId := Nat

/-- The unsubscribe closure returned by `subscribe`: it captures the `Set`
object (`sid`), the callback reference (`cb`) and the event type. -/
structure Handle where
  sid : SetId
  cb : CbId
  type : GameEventType
deriving DecidableEq, Repr

/-- JS `Set.add`: a no-op when the element is present, otherwise appends
(insertion order is preserved). -/
def setAdd (l : List CbId) (c : CbId) : List CbId :=
  if c ∈ l then l else l ++ [c]

/-- JS `Set.delete`: removes the element (sets hold no duplicates). -/
def setDelete (l : List CbId) (c : CbId) : List CbId :=
  l.erase c

/-- Lookup in the `Map<GameEventType, SetId>` association list. -/
def mapLookup : List (GameEventType × SetId) → GameEventType → Option SetId
  | [], _ => none
  | (t, sid) :: rest, u => if t = u then some sid else mapLookup rest u

/-- `Map.delete`: removes the entry for the key. -/
def mapDelete (m : List (GameEventType × SetId)) (t : GameEventType) :
    List (GameEventType × SetId) :=
  m.filter (fun p => p.1 ≠ t)

/-- `Map.set`: binds the key to the value (keys are unique in a JS map; the
iteration order of the map is never observed by the hub). -/
def mapSet (m : List (GameEventType × SetId)) (t : GameEventType) (v : SetId) :
    List (GameEventType × SetId) :=
  (t, v) :: mapDelete m t

/-- Contents of the `Set` object `sid` in the store (never absent for an
allocated identity; the default is only for totality). -/
def setsLookup : List (SetId × List CbId) → SetId → List CbId
  | [], _ => []
  | (sid, l) :: rest, u => if sid = u then l else setsLookup rest u

/-- Replace the contents of the `Set` object `sid` in the store. -/
def setsUpdate (ss : List (SetId × List CbId)) (sid : SetId) (l : List CbId) :
    List (SetId × List CbId) :=
  (sid, l) :: ss.filter (fun p => p.1 ≠ sid)

/-- State of the event hub: `subscribersRef.current` (the map from event
type to the identity of its `Set` object), the store of allocated `Set`
objects, the next fresh `Set` identity, and a log of callback invocations
`(event type, callback)` in the order they were invoked. -/
structure HubState where
  map : List (GameEventType × SetId)
  sets : List (SetId × List CbId)
  nextSid : Nat
  log : List (GameEventType × CbId)
deriving DecidableEq, Repr

/-- The hub right after mount: no subscribers, nothing invoked. -/
def emptyHub : HubState :=
  { map := [], sets := [], nextSid := 0, log := [] }

/-- `subscribe(type, callback)`: creates the `Set` for the type if absent,
adds the callback to it, and returns the unsubscribe closure (which
captures that `Set` object). -/
def subscribe (s : HubState) (t : GameEventType) (c : CbId) :
    Handle × HubState :=
  match mapLookup s.map t with
  | some sid =>
      (⟨sid, c, t⟩,
       { s with sets := setsUpdate s.sets sid (setAdd (setsLookup s.sets sid) c) })
  | none =>
      let sid := s.nextSid
      (⟨sid, c, t⟩,
       { s with
           map := mapSet s.map t sid,
           sets := setsUpdate s.sets sid (setAdd [] c),
           nextSid := sid + 1 })

/-- Invoking an unsubscribe closure: `typeSubscribers.delete(callback)`,
then, if the captured `Set` object is now empty,
`subscribersRef.current.delete(type)` — note this deletes whatever entry
the map currently holds for the type, even if it points at a newer `Set`. -/
def invokeHandle (s : HubState) (h : Handle) : HubState :=
  let l := setDelete (setsLookup s.sets h.sid) h.cb
  let s1 := { s with sets := setsUpdate s.sets h.sid l }
  if l.length = 0 then { s1 with map := mapDelete s1.map h.type } else s1

/-- Effects a callback body can perform on the hub (the fragment the
claims exercise): invoke an unsubscribe handle, subscribe a callback,
or re-entrantly emit. -/
inductive CbAction where
  | unsub (h : Handle)
  | sub (t : GameEventType) (c : CbId)
  | emitAct (t : GameEventType)
deriving DecidableEq, Repr

/-- Behaviour environment: the body of each callback reference, as the
list of hub effects it performs when invoked. -/
abbrev Beh := CbId → List CbAction

/-- First element of the live set (in insertion order) not yet visited by
this `forEach` pass, per the ECMAScript `Set.prototype.forEach` contract. -/
def firstNotVisited : List CbId → List CbId → Option CbId
  | [], _ => none
  | c :: cs, visited => if c ∈ visited then firstNotVisited cs visited else some c

/-- Append an invocation to the log (the callback `c` being called with an
event of type `t`). -/
def logInvoke (s : HubState) (t : GameEventType) (c : CbId) : HubState :=
  { s with log := s.log ++ [(t, c)] }

mutual

/-- Run one callback effect. Fuel bounds re-entrant emission depth. -/
def runAction : Nat → Beh → HubState → CbAction → Option HubState
  | 0, _, _, _ => none
  | _ + 1, _, s, CbAction.unsub h => some (invokeHandle s h)
  | _ + 1, _, s, CbAction.sub t c => some (subscribe s t c).2
  | n + 1, beh, s, CbAction.emitAct t => runEmit n beh s t

/-- Run a callback body (a list of effects) left to right. -/
def runActions : Nat → Beh → HubState → List CbAction → Option HubState
  | 0, _, _, _ => none
  | _ + 1, _, s, [] => some s
  | n + 1, beh, s, a :: as =>
      (runAction n beh s a).bind fun s1 => runActions n beh s1 as

/-- `emit(type)`: look the type up in the live map; with no entry the call
is a no-op, otherwise `forEach` over the captured `Set` object. -/
def runEmit : Nat → Beh → HubState → GameEventType → Option HubState
  | 0, _, _, _ => none
  | n + 1, beh, s, t =>
      match mapLookup s.map t with
      | none => some s
      | some sid => runForEach n beh sid t [] s

/-- The `forEach` loop of `emit`, iterating the live `Set` object `sid`:
visit the first not-yet-visited element of the current contents, run its
body, and continue; stop when every current element has been visited. -/
def runForEach : Nat → Beh → SetId → GameEventType → List CbId → HubState →
    Option HubState
  | 0, _, _, _, _, _ => none
  | n + 1, beh, sid, t, visited, s =>
      match firstNotVisited (setsLookup s.sets sid) visited with
      | none => some s
      | some c =>
          (runActions n beh (logInvoke s t c) (beh c)).bind
            fun s1 => runForEach n beh sid t (visited ++ [c]) s1

end

/-- Number of live registrations of callback `c` under event type `t`:
the multiplicity of `c` in the `Set` the map currently binds to `t`. -/
def regCount (s : HubState) (t : GameEventType) (c : CbId) : Nat :=
  match mapLookup s.map t with
  | none => 0
  | some sid => (setsLookup s.sets sid).count c

/-! ## Game loop timing

The `gameLoop` callback of the source, with `requestAnimationFrame`
timestamps and all timing quantities modelled by rationals (the source
works on finite JS doubles; none of the claims concerns rounding of
doubles).  The React pieces (`setDeltaTime`, `setFps`, the refs) become
fields of a state record threaded through each frame. -/

/-- Payload of the frame-tick event: `{ deltaTime: dt }`. -/
structure TickPayload where
  deltaTime : ℚ
deriving DecidableEq, Repr

/-- Mutable state the loop reads and writes each frame:
`lastFrameTimeRef.current` (initially `0`, tested for truthiness),
`fpsCounterRef.current.frames` and `.elapsed`, and the published React
state `fps` and `deltaTime`. -/
structure LoopState where
  lastFrameTime : ℚ
  frames : Nat
  elapsed : ℚ
  fps : ℤ
  deltaTime : ℚ
deriving DecidableEq, Repr

/-- `Math.round` on a non-negative-or-negative finite value: round half
toward positive infinity, `⌊x + 1/2⌋`. -/
def jsRound (x : ℚ) : ℤ :=
  ⌊x + 1 / 2⌋

/-- The loop state at mount: refs zeroed, `deltaTime` and `fps` React
state initialised to `0`. -/
def initLoopState : LoopState :=
  { lastFrameTime := 0, frames := 0, elapsed := 0, fps := 0, deltaTime := 0 }

/-- One invocation of `gameLoop(timestamp)`: seed `lastFrameTimeRef` on
the first frame (the ref is falsy, i.e. `0`), compute `dt` in seconds,
publish it, bump the FPS counters, publish `Math.round(frames/elapsed)`
and reset the counters once `elapsed >= 1`, emit the tick event carrying
`{ deltaTime: dt }`, and store the timestamp for the next frame.
Returns the new state together with the emitted tick payload. -/
def gameLoop (s : LoopState) (timestamp : ℚ) : LoopState × TickPayload :=
  let last := if s.lastFrameTime = 0 then timestamp else s.lastFrameTime
  let dt := (timestamp - last) / 1000
  let frames1 := s.frames + 1
  let elapsed1 := s.elapsed + dt
  let next :=
    if 1 ≤ elapsed1 then
      { lastFrameTime := timestamp, frames := 0, elapsed := 0,
        fps := jsRound ((frames1 : ℚ) / elapsed1), deltaTime := dt }
    else
      { lastFrameTime := timestamp, frames := frames1, elapsed := elapsed1,
        fps := s.fps, deltaTime := dt }
  (next, { deltaTime := dt })

/-- The delta time `gameLoop` computes from state `s` at `timestamp`:
`(timestamp - lastFrameTime) / 1000` after first-frame seeding. -/
def frameDt (s : LoopState) (timestamp : ℚ) : ℚ :=
  (timestamp - (if s.lastFrameTime = 0 then timestamp else s.lastFrameTime)) / 1000

/-! ## Keyboard tracking -/

/-- The logical game controls, `keyof KeyState` in the source. -/
inductive GameKey where
  | ArrowUp
  | ArrowDown
  | ArrowLeft
  | ArrowRight
  | Space
deriving DecidableEq, Repr

/-- The `KeyState` record: one flag per logical control. -/
structure KeyState where
  ArrowUp : Bool
  ArrowDown : Bool
  ArrowLeft : Bool
  ArrowRight : Bool
  Space : Bool
deriving DecidableEq, Repr

/-- The initial key state: nothing held. -/
def initKeyState : KeyState :=
  { ArrowUp := false, ArrowDown := false, ArrowLeft := false,
    ArrowRight := false, Space := false }

/-- The fixed `keyMap` alias table from physical `KeyboardEvent.key`
strings to logical controls; unmapped keys give `none`. -/
def keyMap : String → Option GameKey
  | "w" => some GameKey.ArrowUp
  | "W" => some GameKey.ArrowUp
  | "a" => some GameKey.ArrowLeft
  | "A" => some GameKey.ArrowLeft
  | "s" => some GameKey.ArrowDown
  | "S" => some GameKey.ArrowDown
  | "d" => some GameKey.ArrowRight
  | "D" => some GameKey.ArrowRight
  | "ArrowUp" => some GameKey.ArrowUp
  | "ArrowDown" => some GameKey.ArrowDown
  | "ArrowLeft" => some GameKey.ArrowLeft
  | "ArrowRight" => some GameKey.ArrowRight
  | " " => some GameKey.Space
  | _ => none

/-- Read the flag of a logical control (`keyState[mappedKey]`). -/
def getKey (s : KeyState) : GameKey → Bool
  | GameKey.ArrowUp => s.ArrowUp
  | GameKey.ArrowDown => s.ArrowDown
  | GameKey.ArrowLeft => s.ArrowLeft
  | GameKey.ArrowRight => s.ArrowRight
  | GameKey.Space => s.Space

/-- Write the flag of a logical control (`{ ...prev, [mappedKey]: b }`). -/
def setKey (s : KeyState) (k : GameKey) (b : Bool) : KeyState :=
  match k with
  | GameKey.ArrowUp => { s with ArrowUp := b }
  | GameKey.ArrowDown => { s with ArrowDown := b }
  | GameKey.ArrowLeft => { s with ArrowLeft := b }
  | GameKey.ArrowRight => { s with ArrowRight := b }
  | GameKey.Space => { s with Space := b }

/-- Payload of the `keyChange` event: `{ key, pressed, state }` where
`state` is the full new key state. -/
structure KeyChangeEvent where
  key : GameKey
  pressed : Bool
  state : KeyState
deriving DecidableEq, Repr

/-- `handleKeyDown(e)`: map the physical key; for an unmapped key do
nothing; for a mapped control already held do nothing (key-repeat guard);
otherwise set the flag and emit one `keyChange` event with the new state.
Returns the new key state and the list of emitted events. -/
def handleKeyDown (s : KeyState) (key : String) : KeyState × List KeyChangeEvent :=
  match keyMap key with
  | none => (s, [])
  | some k =>
      if getKey s k then (s, [])
      else
        let newState := setKey s k true
        (newState, [{ key := k, pressed := true, state := newState }])

/-- `handleKeyUp(e)`: symmetric to `handleKeyDown` — clear the flag only
if it is currently set, emitting one `keyChange` event; otherwise do
nothing. -/
def handleKeyUp (s : KeyState) (key : String) : KeyState × List KeyChangeEvent :=
  match keyMap key with
  | none => (s, [])
  | some k =>
      if getKey s k then
        let newState := setKey s k false
        (newState, [{ key := k, pressed := false, state := newState }])
      else (s, [])

/-! ## Context hooks

`useKeyState` and `useGameLoop` read their React context, which is `null`
outside a `GameWrapper` (both contexts are created with default `null`).
A thrown `Error` is modelled as `Except.error` carrying the message. -/

/-- The data carried by `GameLoopContext` (`deltaTime` and `fps`; the
`subscribe`/`emit` capabilities are modelled separately above). -/
structure GameLoopCtx where
  deltaTime : ℚ
  fps : ℤ
deriving DecidableEq, Repr

/-- `useKeyState()`: throw if the context is `null`, else return it. -/
def useKeyState (ctx : Option KeyState) : Except String KeyState :=
  match ctx with
  | none => Except.error "useKeyState must be used within a GameWrapper"
  | some c => Except.ok c

/-- `useGameLoop()`: throw if the context is `null`, else return it. -/
def useGameLoop (ctx : Option GameLoopCtx) : Except String GameLoopCtx :=
  match ctx with
  | none => Except.error "useGameLoop must be used within a GameWrapper"
  | some c => Except.ok c

/-! ## Theorems -/

/-- C6: on the very first frame of the loop (the previous-timestamp ref
still holds its falsy initial value), the previous timestamp is seeded
with the frame's own timestamp, so for every starting timestamp the
reported delta time — both the published context value and the tick
payload — is exactly zero, and the stored previous timestamp afterwards
is the frame's own timestamp. -/
theorem firstFrameDeltaIsZero (t : ℚ) :
    ((gameLoop initLoopState t).1).deltaTime = 0 ∧
    ((gameLoop initLoopState t).2).deltaTime = 0 ∧
    ((gameLoop initLoopState t).1).lastFrameTime = t := by
  norm_num [gameLoop, initLoopState]

/-- C10: on every frame tick, the deltaTime in the emitted tick payload
and the deltaTime published through the game-loop context are the same
quantity: the (seeded) current-minus-previous timestamp divided by 1000,
computed once per tick. -/
theorem tickPayloadEqualsContextDelta (s : LoopState) (t : ℚ) :
    ((gameLoop s t).2).deltaTime = ((gameLoop s t).1).deltaTime ∧
    ((gameLoop s t).1).deltaTime = frameDt s t := by
  unfold gameLoop frameDt
  refine ⟨?_, ?_⟩ <;> (dsimp only; split <;> split <;> rfl)

/-- C4: on any tick, the published FPS value is updated exactly when the
accumulated elapsed time (including this tick's delta) has reached or
exceeded one second; then it becomes `Math.round(frames / elapsed)` and
both counters reset to zero, and otherwise FPS keeps its previous value
while the counters keep accumulating. -/
theorem fpsUpdatesOnlyAtOneSecondBoundary (s : LoopState) (t : ℚ) :
    (1 ≤ s.elapsed + frameDt s t →
      ((gameLoop s t).1).fps = jsRound (((s.frames + 1 : ℕ) : ℚ) / (s.elapsed + frameDt s t)) ∧
      ((gameLoop s t).1).frames = 0 ∧
      ((gameLoop s t).1).elapsed = 0) ∧
    (¬ 1 ≤ s.elapsed + frameDt s t →
      ((gameLoop s t).1).fps = s.fps ∧
      ((gameLoop s t).1).frames = s.frames + 1 ∧
      ((gameLoop s t).1).elapsed = s.elapsed + frameDt s t) := by
  unfold gameLoop frameDt
  refine ⟨fun h => ?_, fun h => ?_⟩
  · simp only [if_pos h]
    simp
  · simp only [if_neg h]
    simp

/-- Witness for `fpsUpdatesOnlyAtOneSecondBoundary`: at the state with 59
frames and 9/10 s accumulated and previous timestamp 1000, a tick at
timestamp 1200 crosses the boundary and publishes
`Math.round(60 / 1.1) = 55`, resetting both counters. -/
theorem fpsUpdatesOnlyAtOneSecondBoundary_witness :
    ((gameLoop { lastFrameTime := 1000, frames := 59, elapsed := 9/10,
                 fps := 60, deltaTime := 0 } 1200).1).fps = 55 ∧
    ((gameLoop { lastFrameTime := 1000, frames := 59, elapsed := 9/10,
                 fps := 60, deltaTime := 0 } 1200).1).frames = 0 ∧
    ((gameLoop { lastFrameTime := 1000, frames := 59, elapsed := 9/10,
                 fps := 60, deltaTime := 0 } 1200).1).elapsed = 0 := by
  have h := (fpsUpdatesOnlyAtOneSecondBoundary
    { lastFrameTime := 1000, frames := 59, elapsed := 9/10, fps := 60, deltaTime := 0 }
    1200).1 (by norm_num [frameDt])
  refine ⟨?_, h.2.1, h.2.2⟩
  rw [h.1]
  norm_num [frameDt, jsRound]

/-- C7: for every physical key mapped to a logical control, a key-down
while the control's flag is already set changes nothing and emits no
event, a key-up while the flag is already clear changes nothing and emits
no event, and each actual transition (down on a clear flag, up on a set
flag) updates exactly that flag and emits exactly one `keyChange` event
carrying the control, the direction, and the full new state. -/
theorem keyEventsAreEdgeTriggered (key : String) (k : GameKey) (s : KeyState)
    (hk : keyMap key = some k) :
    (getKey s k = true → handleKeyDown s key = (s, [])) ∧
    (getKey s k = false → handleKeyUp s key = (s, [])) ∧
    (getKey s k = false →
      handleKeyDown s key
        = (setKey s k true, [{ key := k, pressed := true, state := setKey s k true }])) ∧
    (getKey s k = true →
      handleKeyUp s key
        = (setKey s k false, [{ key := k, pressed := false, state := setKey s k false }])) := by
  refine ⟨fun h => ?_, fun h => ?_, fun h => ?_, fun h => ?_⟩ <;>
    simp [handleKeyDown, handleKeyUp, hk, h]

/-- Witness for `keyEventsAreEdgeTriggered` at `key = "w"` on the initial
(all-clear) state: the first key-down sets the up flag and emits one
event, and a repeat key-down on the resulting state emits nothing. -/
theorem keyEventsAreEdgeTriggered_witness :
    handleKeyDown initKeyState "w"
      = (setKey initKeyState GameKey.ArrowUp true,
         [{ key := GameKey.ArrowUp, pressed := true,
            state := setKey initKeyState GameKey.ArrowUp true }]) ∧
    handleKeyDown (setKey initKeyState GameKey.ArrowUp true) "w"
      = (setKey initKeyState GameKey.ArrowUp true, []) := by
  exact ⟨(keyEventsAreEdgeTriggered "w" GameKey.ArrowUp initKeyState rfl).2.2.1 rfl,
         (keyEventsAreEdgeTriggered "w" GameKey.ArrowUp
            (setKey initKeyState GameKey.ArrowUp true) rfl).1 rfl⟩

/-- C9: invoking `useKeyState` or `useGameLoop` outside an active
`GameWrapper` (the corresponding context is `null`) throws an error
rather than returning any value, while inside a wrapper each returns the
provided context unchanged. -/
theorem hooksThrowOutsideGameWrapper :
    useKeyState none = Except.error "useKeyState must be used within a GameWrapper" ∧
    useGameLoop none = Except.error "useGameLoop must be used within a GameWrapper" ∧
    (∀ c : KeyState, useKeyState (some c) = Except.ok c) ∧
    (∀ c : GameLoopCtx, useGameLoop (some c) = Except.ok c) := by
  exact ⟨rfl, rfl, fun _ => rfl, fun _ => rfl⟩
/-! ### Registry helper lemmas -/

@[simp]
theorem mapLookup_mapSet_self (m : List (GameEventType × SetId)) (t : GameEventType)
    (v : SetId) : mapLookup (mapSet m t v) t = some v := by
  simp [mapSet, mapLookup]

@[simp]
theorem mapLookup_mapDelete_self (m : List (GameEventType × SetId)) (t : GameEventType) :
    mapLookup (mapDelete m t) t = none := by
  induction m with
  | nil => rfl
  | cons p rest ih =>
      by_cases hp : p.1 = t
      · simpa [mapDelete, hp] using ih
      · simpa [mapDelete, mapLookup, hp] using ih

@[simp]
theorem setsLookup_setsUpdate_self (ss : List (SetId × List CbId)) (sid : SetId)
    (l : List CbId) : setsLookup (setsUpdate ss sid l) sid = l := by
  simp [setsUpdate, setsLookup]

theorem setAdd_idem (l : List CbId) (c : CbId) : setAdd (setAdd l c) c = setAdd l c := by
  unfold setAdd
  by_cases hc : c ∈ l <;> simp [hc]

theorem count_setAdd_self (l : List CbId) (c : CbId) (h : l.count c ≤ 1) :
    (setAdd l c).count c = 1 := by
  unfold setAdd
  by_cases hc : c ∈ l
  · have h1 : 0 < l.count c := List.count_pos_iff.mpr hc
    simp [hc]
    omega
  · simp [hc, List.count_append, List.count_eq_zero.mpr hc]

/-- C5: subscribing the identical callback reference twice under the same
category yields the very same unsubscribe handle and exactly one
effective registration, and one invocation of either handle leaves zero
registrations for that callback–category pair.  (The hypothesis says the
pair is registered at most once beforehand, the invariant every
API-reachable state satisfies.) -/
theorem subscribeIsSetAddDedup (s : HubState) (t : GameEventType) (c : CbId)
    (hcount : regCount s t c ≤ 1) :
    (subscribe s t c).1 = (subscribe (subscribe s t c).2 t c).1 ∧
    regCount (subscribe (subscribe s t c).2 t c).2 t c = 1 ∧
    regCount (invokeHandle (subscribe (subscribe s t c).2 t c).2 (subscribe s t c).1) t c = 0 ∧
    regCount (invokeHandle (subscribe (subscribe s t c).2 t c).2
        (subscribe (subscribe s t c).2 t c).1) t c = 0 := by
  cases hm : mapLookup s.map t with
  | none =>
      have hone : regCount (subscribe (subscribe s t c).2 t c).2 t c = 1 := by
        simp [subscribe, hm, regCount, setAdd_idem, count_setAdd_self, setAdd]
      refine ⟨?_, hone, ?_, ?_⟩ <;>
        simp [subscribe, hm, regCount, invokeHandle, setAdd, setDelete]
  | some sid =>
      have hc1 : (setsLookup s.sets sid).count c ≤ 1 := by
        simpa [regCount, hm] using hcount
      have hone : regCount (subscribe (subscribe s t c).2 t c).2 t c = 1 := by
        simp [subscribe, hm, regCount, setAdd_idem, count_setAdd_self _ _ hc1]
      have hzero : ((setDelete (setAdd (setsLookup s.sets sid) c) c).count c) = 0 := by
        simp [setDelete, List.count_erase_self, count_setAdd_self _ _ hc1]
      refine ⟨by simp [subscribe, hm], hone, ?_, ?_⟩ <;>
        · simp only [subscribe, hm]
          by_cases hlen : (setDelete (setAdd (setsLookup s.sets sid) c) c).length = 0 <;>
            simp [invokeHandle, setAdd_idem, hlen, regCount, hm, hzero]

/-- Witness for `subscribeIsSetAddDedup`: on the freshly mounted hub,
subscribing callback `5` to `collision` twice leaves one registration,
and one invocation of either (identical) handle leaves zero. -/
theorem subscribeIsSetAddDedup_witness :
    regCount emptyHub GameEventType.collision 5 ≤ 1 ∧
    regCount (subscribe (subscribe emptyHub GameEventType.collision 5).2
        GameEventType.collision 5).2 GameEventType.collision 5 = 1 ∧
    regCount (invokeHandle (subscribe (subscribe emptyHub GameEventType.collision 5).2
          GameEventType.collision 5).2
        (subscribe emptyHub GameEventType.collision 5).1) GameEventType.collision 5 = 0 := by
  refine ⟨by decide, ?_, ?_⟩
  · exact (subscribeIsSetAddDedup emptyHub GameEventType.collision 5 (by decide)).2.1
  · exact (subscribeIsSetAddDedup emptyHub GameEventType.collision 5 (by decide)).2.2.1

/-- C8: with subscribers `a` then `b` registered for `t`, if `a` invokes
its own unsubscribe handle from within its invocation, the dispatch still
succeeds, `a` is invoked exactly once in that emission, and the remaining
subscriber `b` is still dispatched: the invocation log of the emission is
exactly `[(t, a), (t, b)]`. -/
theorem selfUnsubscribeIsSafe (a b : CbId) (t : GameEventType) (hab : a ≠ b) :
    (runEmit 7
        (fun c => if c = a then [CbAction.unsub (subscribe emptyHub t a).1] else [])
        (subscribe ((subscribe emptyHub t a).2) t b).2 t).map HubState.log
      = some [(t, a), (t, b)] := by
  have h1 : (subscribe emptyHub t a).2
      = { map := [(t, 0)], sets := [(0, [a])], nextSid := 1, log := [] } := by
    simp [subscribe, emptyHub, mapLookup, mapSet, mapDelete, setsUpdate, setAdd]
  have hh : (subscribe emptyHub t a).1 = ⟨0, a, t⟩ := by
    simp [subscribe, emptyHub, mapLookup]
  rw [h1, hh]
  have h2 : (subscribe { map := [(t, 0)], sets := [(0, [a])], nextSid := 1, log := [] } t b).2
      = { map := [(t, 0)], sets := [(0, [a, b])], nextSid := 1, log := [] } := by
    simp [subscribe, mapLookup, setsUpdate, setsLookup, setAdd, Ne.symm hab]
  rw [h2]
  simp only [runEmit, mapLookup, if_true, eq_self_iff_true]
  simp [runForEach, runActions, runAction, firstNotVisited, setsLookup, setsUpdate,
    setDelete, invokeHandle, logInvoke, hab, Ne.symm hab]

/-- Witness for `selfUnsubscribeIsSafe` with subscribers `0` and `1` on
the `custom` category. -/
theorem selfUnsubscribeIsSafe_witness :
    (0 : CbId) ≠ 1 ∧
    (runEmit 7
        (fun c => if c = 0 then
          [CbAction.unsub (subscribe emptyHub GameEventType.custom 0).1] else [])
        (subscribe ((subscribe emptyHub GameEventType.custom 0).2)
          GameEventType.custom 1).2 GameEventType.custom).map HubState.log
      = some [(GameEventType.custom, 0), (GameEventType.custom, 1)] :=
  ⟨by decide, selfUnsubscribeIsSafe 0 1 GameEventType.custom (by decide)⟩

/-- C1 counterexample: on the freshly mounted hub with only callback `0`
subscribed to `tick`, callback `1` is not registered when the emission
starts, is subscribed to `tick` from within callback `0`'s invocation,
and is nevertheless invoked during that very emission — `emit` iterates
the live `Set`, which per the ECMAScript `forEach` contract visits
elements appended during iteration. -/
theorem inFlightSubscriberIsInvoked_cex :
    regCount (subscribe emptyHub GameEventType.tick 0).2 GameEventType.tick 1 = 0 ∧
    (runEmit 7 (fun c => if c = 0 then [CbAction.sub GameEventType.tick 1] else [])
        (subscribe emptyHub GameEventType.tick 0).2 GameEventType.tick).map HubState.log
      = some [(GameEventType.tick, 0), (GameEventType.tick, 1)] := by
  decide

/-- C1 amended: a callback subscribed to the emitted category from within
one of that emission's callback invocations is appended to the live
subscriber set and IS invoked later in that same emission (and receives
subsequent emissions as well): with `a` the sole initial subscriber whose
body subscribes `b`, the emission's log is `[(t, a), (t, b)]`. -/
theorem inFlightSubscriberIsInvoked (a b : CbId) (t : GameEventType) (hab : a ≠ b) :
    (runEmit 7 (fun c => if c = a then [CbAction.sub t b] else [])
        (subscribe emptyHub t a).2 t).map HubState.log
      = some [(t, a), (t, b)] := by
  have h1 : (subscribe emptyHub t a).2
      = { map := [(t, 0)], sets := [(0, [a])], nextSid := 1, log := [] } := by
    simp [subscribe, emptyHub, mapLookup, mapSet, mapDelete, setsUpdate, setAdd]
  rw [h1]
  simp only [runEmit, mapLookup, if_true, eq_self_iff_true]
  simp [runForEach, runActions, runAction, subscribe, mapLookup, firstNotVisited,
    setsLookup, setsUpdate, setAdd, logInvoke, hab, Ne.symm hab]

/-- Witness for `inFlightSubscriberIsInvoked` with `a = 0`, `b = 1` on
the `keyChange` category. -/
theorem inFlightSubscriberIsInvoked_witness :
    (0 : CbId) ≠ 1 ∧
    (runEmit 7 (fun c => if c = 0 then [CbAction.sub GameEventType.keyChange 1] else [])
        (subscribe emptyHub GameEventType.keyChange 0).2 GameEventType.keyChange).map
        HubState.log
      = some [(GameEventType.keyChange, 0), (GameEventType.keyChange, 1)] :=
  ⟨by decide, inFlightSubscriberIsInvoked 0 1 GameEventType.keyChange (by decide)⟩

/-- C2 counterexample: with callbacks `0` and `1` both registered for
`tick` when the emission starts (`1` has one registration), callback `0`
unsubscribes callback `1` during its own invocation, and `1` — although
registered at the start of the emission — is never invoked in that pass:
the live `Set` iteration skips elements deleted before being reached. -/
theorem startSetNotAllInvoked_cex :
    regCount (subscribe (subscribe emptyHub GameEventType.tick 0).2
        GameEventType.tick 1).2 GameEventType.tick 1 = 1 ∧
    (runEmit 7
        (fun c => if c = 0 then
          [CbAction.unsub (subscribe (subscribe emptyHub GameEventType.tick 0).2
            GameEventType.tick 1).1] else [])
        (subscribe (subscribe emptyHub GameEventType.tick 0).2 GameEventType.tick 1).2
        GameEventType.tick).map HubState.log
      = some [(GameEventType.tick, 0)] := by
  decide

/-- C2 amended: when a callback unsubscribes a different not-yet-visited
callback of the same category during an emission, the victim is skipped
in that pass (the code iterates the live `Set`, not a snapshot taken at
the start of the emission); callbacks already visited are unaffected and
no callback is invoked twice: with initial set `[a, b]` where `a`
unsubscribes `b`, the emission's log is exactly `[(t, a)]`. -/
theorem startSetNotAllInvoked (a b : CbId) (t : GameEventType) (hab : a ≠ b) :
    (runEmit 7
        (fun c => if c = a then
          [CbAction.unsub (subscribe ((subscribe emptyHub t a).2) t b).1] else [])
        (subscribe ((subscribe emptyHub t a).2) t b).2 t).map HubState.log
      = some [(t, a)] := by
  have h1 : (subscribe emptyHub t a).2
      = { map := [(t, 0)], sets := [(0, [a])], nextSid := 1, log := [] } := by
    simp [subscribe, emptyHub, mapLookup, mapSet, mapDelete, setsUpdate, setAdd]
  have hh : (subscribe ((subscribe emptyHub t a).2) t b).1 = ⟨0, b, t⟩ := by
    rw [h1]
    simp [subscribe, mapLookup]
  have h2 : (subscribe ((subscribe emptyHub t a).2) t b).2
      = { map := [(t, 0)], sets := [(0, [a, b])], nextSid := 1, log := [] } := by
    rw [h1]
    simp [subscribe, mapLookup, setsUpdate, setsLookup, setAdd, Ne.symm hab]
  rw [hh, h2]
  simp only [runEmit, mapLookup, if_true, eq_self_iff_true]
  simp [runForEach, runActions, runAction, firstNotVisited, setsLookup, setsUpdate,
    setDelete, invokeHandle, logInvoke, List.erase_cons, hab, Ne.symm hab]

/-- Witness for `startSetNotAllInvoked` with `a = 0`, `b = 1` on the
`collision` category. -/
theorem startSetNotAllInvoked_witness :
    (0 : CbId) ≠ 1 ∧
    (runEmit 7
        (fun c => if c = 0 then
          [CbAction.unsub (subscribe ((subscribe emptyHub GameEventType.collision 0).2)
            GameEventType.collision 1).1] else [])
        (subscribe ((subscribe emptyHub GameEventType.collision 0).2)
          GameEventType.collision 1).2 GameEventType.collision).map HubState.log
      = some [(GameEventType.collision, 0)] :=
  ⟨by decide, startSetNotAllInvoked 0 1 GameEventType.collision (by decide)⟩

/-- C3 (bug in the code): subscribe callback `0` to `tick`, invoke its
handle once (the set empties and the `tick` map entry is removed), then
subscribe callback `1` to `tick` (a fresh `Set` is created and mapped);
invoking the first handle a second time deletes the `tick` map entry
again — because the captured old `Set` is still empty — detaching
callback `1`'s registration: afterwards `1` counts zero registrations and
an emission of `tick` invokes nobody, although `1` was never
unsubscribed. -/
theorem staleHandleSecondInvocationDetachesNewSet :
    (let p := subscribe emptyHub GameEventType.tick 0
     let q := subscribe (invokeHandle p.2 p.1) GameEventType.tick 1
     let s2 := invokeHandle q.2 p.1
     regCount q.2 GameEventType.tick 1 = 1 ∧
     regCount s2 GameEventType.tick 1 = 0 ∧
     mapLookup s2.map GameEventType.tick = none ∧
     (runEmit 7 (fun _ => []) s2 GameEventType.tick).map HubState.log = some []) := by
  decide
